import Mathlib

/-
Verification development for the sbc-lms lesson-generation core.

The definitions below are a shallow embedding of the Python sources:
  - services/gemini.py   : document validation and the extraction retry loop
  - api.py               : pipeline task, progress store, result retrieval,
                           cancellation, websocket chat error path
  - services/chatbot.py  : chat history, response fallback, suggestions

Python dicts are embedded as insertion-ordered association lists of
string keys and JSON-like values; dynamic failures (ValueError,
TypeError, AttributeError, ...) are embedded in an Except monad.
-/

/-- A JSON-like dynamic value, as produced by parsing a model response. -/
inductive JVal where
  | jnull
  | jbool (b : Bool)
  | jnum (n : Int)
  | jstr (s : String)
  | jarr (elems : List JVal)
  | jobj (fields : List (String × JVal))

/-- A Python dict with string keys, in insertion order. -/
abbrev PyDict := List (String × JVal)

/-- Dictionary lookup, first matching key wins (keys are unique in practice). -/
def PyDict.get? : PyDict → String → Option JVal
  | [], _ => none
  | (k, v) :: rest, key => if k = key then some v else PyDict.get? rest key

/-- Dictionary assignment: replace in place when the key exists, else append
(the semantics of Python dict assignment under insertion order). -/
def PyDict.set : PyDict → String → JVal → PyDict
  | [], key, val => [(key, val)]
  | (k, v) :: rest, key, val =>
    if k = key then (k, val) :: rest else (k, v) :: PyDict.set rest key val

/-- Membership test, as in Python `key in node`. -/
def PyDict.hasKey (o : PyDict) (key : String) : Bool :=
  (PyDict.get? o key).isSome

/-- One step of the backfill pattern `if field not in node: node[field] = default`. -/
def setDefault (o : PyDict) (key : String) (val : JVal) : PyDict :=
  if PyDict.hasKey o key then o else PyDict.set o key val

/-- Backfill a whole table of required fields, in table order. -/
def setDefaults (o : PyDict) : List (String × JVal) → PyDict
  | [] => o
  | (k, v) :: rest => setDefaults (setDefault o k v) rest

/-- The dynamic errors raised by the validation code paths. -/
inductive PyErr where
  | valueError (msg : String)
  | typeError (msg : String)
  | keyError (msg : String)
  | attributeError (msg : String)
  | jsonDecodeError (msg : String)
deriving DecidableEq

mutual
/-- Python repr of a value (used by `str` on non-string values). -/
def pyRepr : JVal → String
  | .jnull => "None"
  | .jbool true => "True"
  | .jbool false => "False"
  | .jnum n => toString n
  | .jstr s => "\x27" ++ s ++ "\x27"
  | .jarr xs => "[" ++ pyReprElems xs ++ "]"
  | .jobj o => "\x7b" ++ pyReprFields o ++ "\x7d"

/-- Comma-separated reprs of list elements. -/
def pyReprElems : List JVal → String
  | [] => ""
  | [x] => pyRepr x
  | x :: rest => pyRepr x ++ ", " ++ pyReprElems rest

/-- Comma-separated reprs of dict entries. -/
def pyReprFields : List (String × JVal) → String
  | [] => ""
  | [(k, v)] => "\x27" ++ k ++ "\x27: " ++ pyRepr v
  | (k, v) :: rest => "\x27" ++ k ++ "\x27: " ++ pyRepr v ++ ", " ++ pyReprFields rest
end

/-- Python `str()` applied to a value. -/
def pyStr : JVal → String
  | .jstr s => s
  | v => pyRepr v

/-- Python iteration `for x in v`: lists yield elements, strings yield
one-character strings, dicts yield their keys, anything else raises TypeError. -/
def toIterList : JVal → Except PyErr (List JVal)
  | .jarr xs => .ok xs
  | .jstr s => .ok (s.toList.map fun c => .jstr (String.mk [c]))
  | .jobj o => .ok (o.map fun kv => .jstr kv.fst)
  | _ => .error (.typeError "object is not iterable")

/-- Python attribute access `child.get(...)` requires a dict; other values
raise AttributeError. -/
def asDict : JVal → Except PyErr PyDict
  | .jobj o => .ok o
  | _ => .error (.attributeError "object has no attribute get")

/-- The value of the `type` entry when it is a string, as compared by the
Python `==` tests in the validator (non-strings never equal a string). -/
def typeOfObj (o : PyDict) : Option String :=
  match PyDict.get? o "type" with
  | some (.jstr t) => some t
  | _ => none

/-- Required-field table of `fix_text_node_structure` (gemini.py). -/
def textRequiredFields : List (String × JVal) :=
  [("type", .jstr "text"), ("version", .jnum 1), ("detail", .jnum 0),
   ("format", .jnum 0), ("mode", .jstr "normal"), ("style", .jstr ""),
   ("text", .jstr "")]

/-- Required-field table of `fix_list_item_structure` (gemini.py). -/
def listitemRequiredFields : List (String × JVal) :=
  [("type", .jstr "listitem"), ("version", .jnum 1), ("direction", .jstr "ltr"),
   ("format", .jstr ""), ("indent", .jnum 0), ("value", .jnum 1)]

/-- Required-field table of `fix_list_structure` (gemini.py). -/
def listRequiredFields : List (String × JVal) :=
  [("type", .jstr "list"), ("version", .jnum 1), ("direction", .jstr "ltr"),
   ("format", .jstr ""), ("indent", .jnum 0), ("start", .jnum 1)]

/-- Embedding of `fix_text_node_structure` (gemini.py lines 250-270):
backfill the text required fields, then coerce a non-string `text` value
to its string form. -/
def fix_text_node_structure (node : PyDict) : PyDict :=
  let node := setDefaults node textRequiredFields
  match PyDict.get? node "text" with
  | some (.jstr _) => node
  | some v => PyDict.set node "text" (.jstr (pyStr v))
  | none => node

/-- One child step of the listitem repair: a paragraph child with children
is flattened into those children, a text child is normalized and kept,
anything else is dropped; a non-dict child raises AttributeError. -/
def flattenListItemChild (acc : List JVal) (child : JVal) : Except PyErr (List JVal) :=
  match asDict child with
  | .error e => .error e
  | .ok c =>
    if typeOfObj c = some "paragraph" then
      match PyDict.get? c "children" with
      | some cc =>
        match toIterList cc with
        | .error e => .error e
        | .ok extra => .ok (acc ++ extra)
      | none => .ok acc
    else if typeOfObj c = some "text" then
      .ok (acc ++ [.jobj (fix_text_node_structure c)])
    else
      .ok acc

/-- Left fold of `flattenListItemChild` over the children of a listitem. -/
def foldFlatten : List JVal → List JVal → Except PyErr (List JVal)
  | acc, [] => .ok acc
  | acc, c :: rest =>
    match flattenListItemChild acc c with
    | .error e => .error e
    | .ok acc2 => foldFlatten acc2 rest

/-- Embedding of `fix_list_item_structure` (gemini.py lines 174-201). -/
def fix_list_item_structure (node : PyDict) : Except PyErr PyDict :=
  let node := setDefaults node listitemRequiredFields
  match PyDict.get? node "children" with
  | some cv =>
    match toIterList cv with
    | .error e => .error e
    | .ok cs =>
      match foldFlatten [] cs with
      | .error e => .error e
      | .ok tc => .ok (PyDict.set node "children" (.jarr tc))
  | none => .ok node

/-- The synthetic listitem that `fix_list_structure` wraps around a
non-listitem child of a list. -/
def syntheticListItem (child : JVal) : PyDict :=
  [("type", .jstr "listitem"), ("version", .jnum 1), ("direction", .jstr "ltr"),
   ("format", .jstr ""), ("indent", .jnum 0), ("value", .jnum 1),
   ("children", .jarr [.jobj (fix_text_node_structure
      [("type", .jstr "text"), ("text", .jstr (pyStr child))])])]

/-- One child step of the list repair: a non-listitem child is replaced by a
synthetic listitem wrapping its string form, a listitem child is repaired. -/
def fixListChild (child : JVal) : Except PyErr JVal :=
  match asDict child with
  | .error e => .error e
  | .ok c =>
    if typeOfObj c = some "listitem" then
      match fix_list_item_structure c with
      | .error e => .error e
      | .ok c2 => .ok (.jobj c2)
    else
      .ok (.jobj (syntheticListItem child))

/-- Sequential map of `fixListChild` over the children of a list. -/
def mapFixListChildren : List JVal → Except PyErr (List JVal)
  | [] => .ok []
  | c :: rest =>
    match fixListChild c with
    | .error e => .error e
    | .ok c2 =>
      match mapFixListChildren rest with
      | .error e => .error e
      | .ok rest2 => .ok (c2 :: rest2)

/-- Embedding of `fix_list_structure` (gemini.py lines 203-248). -/
def fix_list_structure (node : PyDict) : Except PyErr PyDict :=
  let node := setDefaults node listRequiredFields
  let node :=
    match PyDict.get? node "listType" with
    | some (.jstr "bullet") => PyDict.set node "tag" (.jstr "ul")
    | some (.jstr "number") => PyDict.set node "tag" (.jstr "ol")
    | _ => PyDict.set (PyDict.set node "listType" (.jstr "bullet")) "tag" (.jstr "ul")
  match PyDict.get? node "children" with
  | some cv =>
    match toIterList cv with
    | .error e => .error e
    | .ok cs =>
      match mapFixListChildren cs with
      | .error e => .error e
      | .ok fixed => .ok (PyDict.set node "children" (.jarr fixed))
  | none => .ok node

/-- The block kinds for which `ensure_required_fields` backfills
direction, format and indent. -/
def blockKinds : List String := ["paragraph", "heading", "list", "listitem"]

/-- Embedding of `ensure_required_fields` (gemini.py lines 272-285). -/
def ensure_required_fields (node : PyDict) : PyDict :=
  let node := setDefault node "version" (.jnum 1)
  match typeOfObj node with
  | some t =>
    if t ∈ blockKinds then
      setDefaults node
        [("direction", .jstr "ltr"), ("format", .jstr ""), ("indent", .jnum 0)]
    else node
  | none => node

/-- Per-node body of the loop in `validate_lexical_structure`: a non-dict
node is skipped; a dict node has the listItem alias renamed, is repaired
according to its kind, and gets its generic required fields. -/
def processNode (node : JVal) : Except PyErr (Option JVal) :=
  match node with
  | .jobj o0 =>
    let o1 := if typeOfObj o0 = some "listItem"
              then PyDict.set o0 "type" (.jstr "listitem") else o0
    match (if typeOfObj o1 = some "listitem"
           then fix_list_item_structure o1 else .ok o1) with
    | .error e => .error e
    | .ok o2 =>
      match (if typeOfObj o2 = some "list"
             then fix_list_structure o2 else .ok o2) with
      | .error e => .error e
      | .ok o3 =>
        let o4 := if typeOfObj o3 = some "text"
                  then fix_text_node_structure o3 else o3
        .ok (some (.jobj (ensure_required_fields o4)))
  | _ => .ok none

/-- The node loop of `validate_lexical_structure`, keeping processed nodes
in order and propagating the first dynamic error. -/
def validateNodes : List JVal → Except PyErr (List JVal)
  | [] => .ok []
  | n :: rest =>
    match processNode n with
    | .error e => .error e
    | .ok r =>
      match validateNodes rest with
      | .error e => .error e
      | .ok out =>
        .ok (match r with | some v => v :: out | none => out)

/-- Embedding of `validate_lexical_structure` (gemini.py lines 128-172):
a bare array is taken as is, an object is unwrapped through its `children`
entry, anything else raises ValueError. -/
def validate_lexical_structure (data : JVal) : Except PyErr (List JVal) :=
  match data with
  | .jarr xs => validateNodes xs
  | .jobj o =>
    match PyDict.get? o "children" with
    | some c =>
      match toIterList c with
      | .error e => .error e
      | .ok xs => validateNodes xs
    | none => .error (.valueError "Expected array of Lexical nodes")
  | _ => .error (.valueError "Expected array of Lexical nodes")

/-- Embedding of `create_fallback_lesson_structure` (gemini.py lines 287-329). -/
def create_fallback_lesson_structure : List JVal :=
  [.jobj [("type", .jstr "heading"), ("version", .jnum 1), ("direction", .jstr "ltr"),
          ("format", .jstr ""), ("indent", .jnum 0), ("tag", .jstr "h1"),
          ("children", .jarr [.jobj [("type", .jstr "text"), ("version", .jnum 1),
            ("detail", .jnum 0), ("format", .jnum 0), ("mode", .jstr "normal"),
            ("style", .jstr ""), ("text", .jstr "Lesson Content")]])],
   .jobj [("type", .jstr "paragraph"), ("version", .jnum 1), ("direction", .jstr "ltr"),
          ("format", .jstr ""), ("indent", .jnum 0), ("textFormat", .jnum 0),
          ("textStyle", .jstr ""),
          ("children", .jarr [.jobj [("type", .jstr "text"), ("version", .jnum 1),
            ("detail", .jnum 0), ("format", .jnum 0), ("mode", .jstr "normal"),
            ("style", .jstr ""), ("text", .jstr "The lesson content could not be properly parsed from the PDF. Please try uploading the document again or contact support for assistance.")]])]]

/-
Retry loop of `pdf_to_lexical` (gemini.py lines 19-91).

The model call of one attempt either yields a parsed value (which is then
validated and checked for emptiness) or raises; the except chain of the
source classifies the raised error.  The PDF bytes and the prompt are fixed
over the whole loop, so a retried attempt runs on the same input by
construction; the three attempt outcomes are the only free inputs.
-/

/-- Outcome of one Gemini call in `pdf_to_lexical`: a parsed response, or
one of the error families distinguished by the except chain. -/
inductive GeminiResult where
  | parsed (data : JVal)
  | serverErr (msg : String)
  | quotaErr (msg : String)
  | jsonErr (msg : String)
  | otherErr (msg : String)

/-- How one attempt ends, after validation and the emptiness check. -/
inductive AttemptClass where
  | success (nodes : List JVal)
  | transient (msg : String)
  | permanent (msg : String)
  | parseFail (msg : String)
  | other (msg : String)

/-- The errors caught by the parsing-error branch of the except chain
(JSONDecodeError, KeyError, TypeError, ValueError); AttributeError falls
through to the generic branch. -/
def isParseErr : PyErr → Bool
  | .valueError _ => true
  | .typeError _ => true
  | .keyError _ => true
  | .jsonDecodeError _ => true
  | .attributeError _ => false

/-- Classify one attempt: a parsed response runs the validator, an empty
validated result raises ValueError, and raised errors are routed by the
except chain of gemini.py lines 67-89. -/
def classifyAttempt : GeminiResult → AttemptClass
  | .serverErr m => .transient m
  | .quotaErr m => .permanent m
  | .jsonErr m => .parseFail m
  | .otherErr m => .other m
  | .parsed data =>
    match validate_lexical_structure data with
    | .error e => if isParseErr e then .parseFail "validation error" else .other "validation error"
    | .ok ns => if ns.isEmpty then .parseFail "Validated JSON is empty" else .success ns

/-- What one attempt decides: `some` ends the loop with that result,
`none` retries (only possible on a non-final attempt). -/
def pdfAttemptStep (c : AttemptClass) (isLast : Bool) : Option (Except String (List JVal)) :=
  match c with
  | .success ns => some (.ok ns)
  | .transient _ =>
    if isLast then
      some (.error "Gemini AI service is currently unavailable. Please try again in a few minutes.")
    else none
  | .permanent _ =>
    some (.error "AI service quota exceeded. Please try again later.")
  | .parseFail _ =>
    if isLast then some (.ok create_fallback_lesson_structure) else none
  | .other m =>
    if isLast then some (.error ("AI processing failed after 3 attempts: " ++ m)) else none

/-- Embedding of the 3-attempt loop of `pdf_to_lexical`: the result is an
exception message or the returned children list.  The trailing return of
line 91 is unreachable because every class decides on the final attempt. -/
def pdf_to_lexical (a0 a1 a2 : GeminiResult) : Except String (List JVal) :=
  match pdfAttemptStep (classifyAttempt a0) false with
  | some r => r
  | none =>
    match pdfAttemptStep (classifyAttempt a1) false with
    | some r => r
    | none =>
      match pdfAttemptStep (classifyAttempt a2) true with
      | some r => r
      | none => .ok create_fallback_lesson_structure

/-- How many attempts the loop consumes before it ends. -/
def attemptsUsed (a0 a1 : GeminiResult) : Nat :=
  match pdfAttemptStep (classifyAttempt a0) false with
  | some _ => 1
  | none =>
    match pdfAttemptStep (classifyAttempt a1) false with
    | some _ => 2
    | none => 3

/-
Pipeline task of api.py (`generate_lesson_task`, lines 79-181) together
with `update_progress` (lines 345-359) and the submission record written
by `process_pdf` (lines 496-502).  The five collaborator calls are the
free inputs of one run; timestamps are omitted (wall-clock time).
-/

/-- One record written to the progress store by `update_progress`. -/
structure ProgressUpdate where
  stage : String
  progress : Nat
  message : String
deriving DecidableEq

/-- The lesson payload assembled at the end of a successful run
(title, course, content children, narration; audio is never attached). -/
structure LessonData where
  title : String
  courseId : Int
  children : List JVal
  narrationText : String

/-- The progress-store entry for a session: the latest progress record,
plus the result keys attached only after terminal success. -/
structure SessionRecord where
  stage : String
  progress : Nat
  message : String
  lessonData : Option LessonData
  keywordsStored : Option (List String)
  videosStored : Option (List String)

/-- Outcomes of the five collaborator calls made by one pipeline run. -/
structure GatewayRuns where
  extraction : Except String (List JVal)
  narrationRes : Except String String
  keywordsRes : Except String (List String)
  videoSearch : Except String (List String)
  ttsRes : Except String Unit

/-- Embedding of `generate_lesson_task`: the ordered list of progress
updates it writes, and the final progress-store entry for the session. -/
def generate_lesson_task (title : String) (courseId : Int) (g : GatewayRuns) :
    List ProgressUpdate × SessionRecord :=
  let u10 : ProgressUpdate := ⟨"processing", 10, "Analyzing PDF content..."⟩
  match g.extraction with
  | .error e =>
    let uerr : ProgressUpdate := ⟨"error", 100, "AI content analysis failed: " ++ e⟩
    ([u10, uerr], ⟨"error", 100, uerr.message, none, none, none⟩)
  | .ok lexicalChildren =>
    let t1 := [u10, ⟨"processing", 40, "PDF content analysis complete"⟩,
               ⟨"processing", 40, "Generating audio narration script..."⟩]
    match g.narrationRes with
    | .error e =>
      let uerr : ProgressUpdate := ⟨"error", 100, "Audio narration script generation failed: " ++ e⟩
      (t1 ++ [uerr], ⟨"error", 100, uerr.message, none, none, none⟩)
    | .ok narration =>
      let t2 := t1 ++ [⟨"processing", 55, "Audio narration script generated"⟩,
                       ⟨"processing", 55, "Extracting keywords..."⟩]
      let kwStep : List String × ProgressUpdate :=
        match g.keywordsRes with
        | .ok ks => (ks, ⟨"processing", 70, "Keywords extracted successfully"⟩)
        | .error _ =>
          (["education", "learning", title.toLower],
           ⟨"processing", 70, "Keywords extracted (fallback)"⟩)
      let t3 := t2 ++ [kwStep.2, ⟨"youtube", 70, "Searching for relevant videos..."⟩]
      let vidStep : List String × ProgressUpdate :=
        match g.videoSearch with
        | .ok vs => (vs, ⟨"youtube", 80, "Found " ++ toString vs.length ++ " educational videos"⟩)
        | .error _ => ([], ⟨"youtube", 80, "Video search completed (0 found or error)"⟩)
      let t4 := t3 ++ [vidStep.2, ⟨"youtube", 80, "Generating audio narration file..."⟩]
      let uAud : ProgressUpdate :=
        match g.ttsRes with
        | .ok _ => ⟨"youtube", 95, "Audio narration file generated"⟩
        | .error _ => ⟨"youtube", 95, "Audio generation failed"⟩
      let uSel : ProgressUpdate := ⟨"selection", 100, "Lesson ready for video selection"⟩
      (t4 ++ [uAud, uSel],
       ⟨"selection", 100, uSel.message,
        some ⟨title, courseId, lexicalChildren, narration⟩,
        some kwStep.1, some vidStep.1⟩)

/-- The full sequence of progress records for one session: the upload
record written at submission, followed by the updates of the task. -/
def fullTrace (title : String) (courseId : Int) (g : GatewayRuns) : List ProgressUpdate :=
  ⟨"upload", 0, "PDF uploaded successfully"⟩ :: (generate_lesson_task title courseId g).1

/-
Result retrieval (`get_lesson_result`, api.py lines 535-569) over the
progress-store dictionary, and cancellation (`cancel_lesson_generation`,
api.py lines 382-410) over the progress store and the websocket
connection registry of `ConnectionManager` (api.py lines 36-56).
-/

/-- The progress-store dictionary `progress_tracker`, keyed by session id. -/
abbrev ProgressStore := List (String × SessionRecord)

/-- Lookup of a session record by id. -/
def storeLookup : ProgressStore → String → Option SessionRecord
  | [], _ => none
  | (k, v) :: rest, key => if k = key then some v else storeLookup rest key

/-- Deletion of a session record, as in Python `del progress_tracker[sid]`. -/
def storeErase (store : ProgressStore) (key : String) : ProgressStore :=
  store.filter fun kv => kv.1 ≠ key

/-- The response of the lesson-result endpoint: 404 when the session is
unknown, 202 while it is still running, 500 when the terminal record lacks
its payload, and the payload on success. -/
inductive LessonResultResponse where
  | notFound
  | stillRunning
  | missingData
  | success (lesson : LessonData) (tubeVids : List String) (sessionId : String)

/-- Embedding of `get_lesson_result`: reads the record, consumes it only on
terminal success, and leaves the store untouched on every other path. -/
def get_lesson_result (store : ProgressStore) (sessionId : String) :
    LessonResultResponse × ProgressStore :=
  match storeLookup store sessionId with
  | none => (.notFound, store)
  | some pd =>
    if pd.stage ≠ "selection" ∨ pd.progress < 100 then
      (.stillRunning, store)
    else
      match pd.lessonData with
      | none => (.missingData, store)
      | some ld =>
        (.success ld ((pd.videosStored).getD []) sessionId, storeErase store sessionId)

/-- State touched by cancellation: the progress store, the websocket
connection registry of the ConnectionManager, and the log of events
actually delivered to live connections. -/
structure ApiState where
  tracker : ProgressStore
  activeConnections : List String
  sentEvents : List (String × ProgressUpdate)

/-- Embedding of `ConnectionManager.send_progress_update`: the event is
delivered only when a connection is registered for the session id
(delivery is modelled as ideal; the send-failure branch only disconnects). -/
def send_progress_update (st : ApiState) (sessionId : String) (data : ProgressUpdate) :
    ApiState :=
  if sessionId ∈ st.activeConnections then
    { st with sentEvents := st.sentEvents ++ [(sessionId, data)] }
  else st

/-- Embedding of `ConnectionManager.disconnect`. -/
def disconnect (st : ApiState) (sessionId : String) : ApiState :=
  { st with activeConnections := st.activeConnections.filter fun s => s ≠ sessionId }

/-- The cancellation event constructed by `cancel_lesson_generation`. -/
def cancellationData : ProgressUpdate :=
  ⟨"cancelled", 0, "Lesson generation cancelled by user"⟩

/-- Embedding of `cancel_lesson_generation` (api.py lines 382-410), in the
order of the source: delete the tracker entry, disconnect the websocket,
then call `send_progress_update` with the cancellation event. -/
def cancel_lesson_generation (st : ApiState) (sessionId : String) : ApiState :=
  let st := { st with tracker := storeErase st.tracker sessionId }
  let st := disconnect st sessionId
  send_progress_update st sessionId cancellationData

/-
Chat service (services/chatbot.py): history bookkeeping of
`ChatSession.add_message`, the fallback path of
`ChatbotService.generate_response`, the follow-up suggestions of
`ChatbotService.generate_suggestions`, and the error event of the chat
websocket endpoint (api.py lines 801-809).
-/

/-- One history entry of a chat session (timestamp and metadata omitted). -/
structure ChatMessageRec where
  role : String
  content : String
deriving DecidableEq

/-- Embedding of `ChatSession.add_message`: append, then keep only the
last 20 entries. -/
def add_message (history : List ChatMessageRec) (m : ChatMessageRec) :
    List ChatMessageRec :=
  let h := history ++ [m]
  if h.length > 20 then h.drop (h.length - 20) else h

/-- Substring check of a pattern inside a text, as Python `sub in s`:
the pattern occurs starting at some position (an empty pattern always occurs). -/
def startsWithList : List Char → List Char → Bool
  | _, [] => true
  | [], _ :: _ => false
  | a :: as, b :: bs => a == b && startsWithList as bs

/-- Occurrence of a pattern at any position of a character list. -/
def containsSubList (pat : List Char) : List Char → Bool
  | [] => pat.isEmpty
  | x :: xs => startsWithList (x :: xs) pat || containsSubList pat xs

/-- Python substring containment `pat in s` on strings. -/
def strContains (s pat : String) : Bool :=
  containsSubList pat.toList s.toList

/-- Embedding of `ChatbotService.generate_suggestions` (chatbot.py lines
364-394): one of four canned lists selected by mode and user message,
cut to the first 3 entries. -/
def generate_suggestions (userMessage botResponse mode : String) : List String :=
  let suggestions :=
    if mode = "quiz_mode" then
      ["Can you create another practice question?",
       "Explain the answer to this question",
       "What\x27s a common mistake for this topic?"]
    else if strContains userMessage.toLower "explain" then
      ["Can you provide an example?",
       "How does this relate to other concepts?",
       "What are the practical applications?"]
    else if strContains userMessage.toLower "summary" then
      ["Can you create practice questions?",
       "What should I focus on studying?",
       "Are there related lessons?"]
    else
      ["Can you explain this concept further?",
       "Create a practice question about this",
       "What are the key takeaways?",
       "How can I apply this knowledge?"]
  suggestions.take 3

/-- The fixed apologetic fallback reply of `ChatbotService.generate_response`. -/
def chatFallbackText : String :=
  "I\x27m sorry, I\x27m having trouble processing your request right now. Could you please try rephrasing your question?"

/-- The payload returned by `ChatbotService.generate_response` to the HTTP
caller (timestamp omitted). -/
structure ChatResult where
  responseText : String
  sessionId : String
  relatedLessons : List String
  suggestions : List String
  errorField : Option String

/-- Embedding of the response/fallback branches of
`ChatbotService.generate_response` (chatbot.py lines 310-362), as a
function of the LLM collaborator outcome: on success the reply and the
conversation-driven suggestions, on failure the fixed fallback reply, two
canned suggestions, and the raw error string under the `error` key. -/
def generate_response_payload (sessionId message mode : String)
    (related : List String) (llm : Except String String) : ChatResult :=
  match llm with
  | .ok resp =>
    ⟨resp, sessionId, related, generate_suggestions message resp mode, none⟩
  | .error e =>
    ⟨chatFallbackText, sessionId, [],
     ["Can you explain this concept further?", "What are the key points?"],
     some e⟩

/-- The content of the error event sent to the websocket chat client when
processing a message raises (api.py lines 805-809). -/
def ws_chat_error_content (e : String) : String :=
  "Sorry, I encountered an error: " ++ e ++ ". Please try again."

/-- Whether an optional value is present and a string. -/
def isStrVal : Option JVal → Bool
  | some (.jstr _) => true
  | _ => false

/-- The full required-field set of a text node: all seven fields present
and the text value a string. -/
def textFieldsOk (o : PyDict) : Bool :=
  PyDict.hasKey o "type" && PyDict.hasKey o "version" && PyDict.hasKey o "detail" &&
  PyDict.hasKey o "format" && PyDict.hasKey o "mode" && PyDict.hasKey o "style" &&
  isStrVal (PyDict.get? o "text")

/-- The children array of a node, empty when absent or not an array. -/
def childNodes (o : PyDict) : List JVal :=
  match PyDict.get? o "children" with
  | some (.jarr xs) => xs
  | _ => []

/-- Whether a value is a dict node of kind text. -/
def isTextNode (v : JVal) : Bool :=
  match v with
  | .jobj co =>
    match typeOfObj co with
    | some t => t == "text"
    | none => false
  | _ => false

/-- Whether a value is a dict node of kind listitem. -/
def isListItemNode (v : JVal) : Bool :=
  match v with
  | .jobj co =>
    match typeOfObj co with
    | some t => t == "listitem"
    | none => false
  | _ => false

/-- Hypothesis on one child of a listitem: when it is a paragraph dict, its
own children are an array of text nodes (or absent). -/
def liChildOk (c : JVal) : Bool :=
  match c with
  | .jobj co =>
    if typeOfObj co = some "paragraph" then
      match PyDict.get? co "children" with
      | none => true
      | some (.jarr gs) => gs.all isTextNode
      | some _ => false
    else true
  | _ => true

/-- Hypothesis on a listitem node: its children entry is absent or an array
each of whose paragraph members contains only text children. -/
def liHypothesis (o : PyDict) : Bool :=
  match PyDict.get? o "children" with
  | none => true
  | some (.jarr cs) => cs.all liChildOk
  | some _ => false

/-- Invariant checked on every node of the validator output: `version` is
present, block kinds carry direction, format and indent, and text nodes
carry the full text field set. -/
def nodeFieldsOk (n : JVal) : Bool :=
  match n with
  | .jobj o =>
    PyDict.hasKey o "version" &&
    (match typeOfObj o with
     | some t =>
       (if t ∈ blockKinds then
          PyDict.hasKey o "direction" && PyDict.hasKey o "format" && PyDict.hasKey o "indent"
        else true) &&
       (if t = "text" then textFieldsOk o else true)
     | none => true)
  | _ => false

/-- Invariant checked on every node of the validator output: a node of kind
list has only listitem children. -/
def topListOk (n : JVal) : Bool :=
  match n with
  | .jobj o =>
    match typeOfObj o with
    | some t => if t = "list" then (childNodes o).all isListItemNode else true
    | none => true
  | _ => true

mutual
/-- Deep version of the claimed list invariants: every dict node reachable
anywhere in the value satisfies that a list node has only listitem children
and a listitem node has only text children. -/
def deepListOk : JVal → Bool
  | .jobj o =>
    ((if typeOfObj o = some "list" then (childNodes o).all isListItemNode else true) &&
     (if typeOfObj o = some "listitem" then (childNodes o).all isTextNode else true)) &&
    deepListOkFields o
  | .jarr xs => deepListOkListPart xs
  | .jnull => true
  | .jbool _ => true
  | .jnum _ => true
  | .jstr _ => true

/-- Deep list invariant over a list of values. -/
def deepListOkListPart : List JVal → Bool
  | [] => true
  | v :: rest => deepListOk v && deepListOkListPart rest

/-- Deep list invariant over the field values of a dict. -/
def deepListOkFields : List (String × JVal) → Bool
  | [] => true
  | (_, v) :: rest => deepListOk v && deepListOkFields rest
end

/-- A concrete raw input for the validator: one listitem whose paragraph
child wraps a nested list node. -/
def c4Input : JVal :=
  .jarr [.jobj [("type", .jstr "listitem"),
    ("children", .jarr [.jobj [("type", .jstr "paragraph"),
      ("children", .jarr [.jobj [("type", .jstr "list"),
        ("children", .jarr [.jobj [("type", .jstr "text"), ("text", .jstr "x")]])]])]])]]

/-- The progress percentages written over one full session, in order. -/
def progressSeq (title : String) (courseId : Int) (g : GatewayRuns) : List Nat :=
  (fullTrace title courseId g).map fun u => u.progress

/-
Basic lemmas about the dictionary operations.
-/

theorem get?_set_self (o : PyDict) (k : String) (v : JVal) :
    PyDict.get? (PyDict.set o k v) k = some v := by
  induction o with
  | nil => simp [PyDict.set, PyDict.get?]
  | cons hd tl ih =>
    obtain ⟨k0, v0⟩ := hd
    by_cases h : k0 = k
    · simp [PyDict.set, PyDict.get?, h]
    · simp [PyDict.set, PyDict.get?, h, ih]

theorem get?_set_ne (o : PyDict) (k key : String) (v : JVal) (h : k ≠ key) :
    PyDict.get? (PyDict.set o k v) key = PyDict.get? o key := by
  induction o with
  | nil => simp [PyDict.set, PyDict.get?, h]
  | cons hd tl ih =>
    obtain ⟨k0, v0⟩ := hd
    by_cases h0 : k0 = k
    · subst h0
      simp [PyDict.set, PyDict.get?, h]
    · simp [PyDict.set, PyDict.get?, h0, ih]

theorem setDefault_of_hasKey (o : PyDict) (k : String) (v : JVal)
    (h : PyDict.hasKey o k = true) : setDefault o k v = o := by
  simp [setDefault, h]

theorem get?_setDefault_ne (o : PyDict) (k key : String) (v : JVal) (h : k ≠ key) :
    PyDict.get? (setDefault o k v) key = PyDict.get? o key := by
  unfold setDefault
  split
  · rfl
  · exact get?_set_ne o k key v h

theorem get?_setDefault_of_isSome (o : PyDict) (k key : String) (v : JVal)
    (h : (PyDict.get? o key).isSome) :
    PyDict.get? (setDefault o k v) key = PyDict.get? o key := by
  by_cases hk : k = key
  · subst hk
    rw [setDefault_of_hasKey]
    exact h
  · exact get?_setDefault_ne o k key v hk

theorem isSome_get?_setDefault_self (o : PyDict) (k : String) (v : JVal) :
    (PyDict.get? (setDefault o k v) k).isSome := by
  unfold setDefault
  split
  · next h => exact h
  · rw [get?_set_self]
    rfl

theorem get?_setDefaults_of_isSome (o : PyDict) (fields : List (String × JVal))
    (key : String) (h : (PyDict.get? o key).isSome) :
    PyDict.get? (setDefaults o fields) key = PyDict.get? o key := by
  induction fields generalizing o with
  | nil => rfl
  | cons hd tl ih =>
    obtain ⟨k0, v0⟩ := hd
    have h1 := get?_setDefault_of_isSome o k0 key v0 h
    have h2 : (PyDict.get? (setDefault o k0 v0) key).isSome := by rw [h1]; exact h
    simp only [setDefaults]
    rw [ih _ h2, h1]

theorem isSome_get?_setDefaults_of_isSome (o : PyDict) (fields : List (String × JVal))
    (key : String) (h : (PyDict.get? o key).isSome) :
    (PyDict.get? (setDefaults o fields) key).isSome := by
  rw [get?_setDefaults_of_isSome o fields key h]
  exact h

theorem get?_setDefaults_ne_all (o : PyDict) (fields : List (String × JVal))
    (key : String) (h : ∀ kv ∈ fields, kv.1 ≠ key) :
    PyDict.get? (setDefaults o fields) key = PyDict.get? o key := by
  induction fields generalizing o with
  | nil => rfl
  | cons hd tl ih =>
    obtain ⟨k0, v0⟩ := hd
    simp only [setDefaults]
    rw [ih _ fun kv hkv => h kv (List.mem_cons_of_mem _ hkv)]
    exact get?_setDefault_ne o k0 key v0 (h (k0, v0) (List.mem_cons_self _ _))

theorem isSome_get?_setDefaults_of_mem (o : PyDict) (fields : List (String × JVal))
    (key : String) (h : key ∈ fields.map Prod.fst) :
    (PyDict.get? (setDefaults o fields) key).isSome := by
  induction fields generalizing o with
  | nil => simp at h
  | cons hd tl ih =>
    obtain ⟨k0, v0⟩ := hd
    simp only [List.map_cons, List.mem_cons] at h
    rcases h with h | h
    · subst h
      exact isSome_get?_setDefaults_of_isSome _ tl _ (isSome_get?_setDefault_self o key v0)
    · simp only [setDefaults]
      exact ih _ h


/-
Field checkers used to state the validator invariants, and lemmas about
the per-kind fixers.
-/

theorem typeOfObj_eq_some_iff (o : PyDict) (t : String) :
    typeOfObj o = some t ↔ PyDict.get? o "type" = some (.jstr t) := by
  unfold typeOfObj
  cases h : PyDict.get? o "type" with
  | none => simp
  | some v => cases v <;> simp

theorem typeOfObj_congr (o1 o2 : PyDict)
    (h : PyDict.get? o1 "type" = PyDict.get? o2 "type") :
    typeOfObj o1 = typeOfObj o2 := by
  unfold typeOfObj
  rw [h]

theorem textFieldsOk_fix_text (o : PyDict) :
    textFieldsOk (fix_text_node_structure o) = true := by
  have htype := isSome_get?_setDefaults_of_mem o textRequiredFields "type"
    (by simp [textRequiredFields])
  have hver := isSome_get?_setDefaults_of_mem o textRequiredFields "version"
    (by simp [textRequiredFields])
  have hdet := isSome_get?_setDefaults_of_mem o textRequiredFields "detail"
    (by simp [textRequiredFields])
  have hfmt := isSome_get?_setDefaults_of_mem o textRequiredFields "format"
    (by simp [textRequiredFields])
  have hmode := isSome_get?_setDefaults_of_mem o textRequiredFields "mode"
    (by simp [textRequiredFields])
  have hsty := isSome_get?_setDefaults_of_mem o textRequiredFields "style"
    (by simp [textRequiredFields])
  have htxt := isSome_get?_setDefaults_of_mem o textRequiredFields "text"
    (by simp [textRequiredFields])
  unfold fix_text_node_structure
  dsimp only
  split
  · next s h =>
    simp [textFieldsOk, PyDict.hasKey, htype, hver, hdet, hfmt, hmode, hsty, h, isStrVal]
  · next v h hne =>
    have e0 : PyDict.get? (PyDict.set (setDefaults o textRequiredFields) "text"
        (JVal.jstr (pyStr v))) "text" = some (JVal.jstr (pyStr v)) :=
      get?_set_self (setDefaults o textRequiredFields) "text" (JVal.jstr (pyStr v))
    have e1 := get?_set_ne (setDefaults o textRequiredFields) "text" "type"
      (JVal.jstr (pyStr v)) (by decide)
    have e2 := get?_set_ne (setDefaults o textRequiredFields) "text" "version"
      (JVal.jstr (pyStr v)) (by decide)
    have e3 := get?_set_ne (setDefaults o textRequiredFields) "text" "detail"
      (JVal.jstr (pyStr v)) (by decide)
    have e4 := get?_set_ne (setDefaults o textRequiredFields) "text" "format"
      (JVal.jstr (pyStr v)) (by decide)
    have e5 := get?_set_ne (setDefaults o textRequiredFields) "text" "mode"
      (JVal.jstr (pyStr v)) (by decide)
    have e6 := get?_set_ne (setDefaults o textRequiredFields) "text" "style"
      (JVal.jstr (pyStr v)) (by decide)
    simp [textFieldsOk, PyDict.hasKey, e0, e1, e2, e3, e4, e5, e6,
      htype, hver, hdet, hfmt, hmode, hsty, isStrVal]
  · next h =>
    rw [h] at htxt
    simp at htxt

theorem get?_fix_text_type (o : PyDict) (h : PyDict.get? o "type" = some (.jstr "text")) :
    PyDict.get? (fix_text_node_structure o) "type" = some (.jstr "text") := by
  have h1 : PyDict.get? (setDefaults o textRequiredFields) "type" = PyDict.get? o "type" :=
    get?_setDefaults_of_isSome o textRequiredFields "type" (by rw [h]; rfl)
  unfold fix_text_node_structure
  dsimp only
  split
  · rw [h1, h]
  · next v hv hne =>
    rw [get?_set_ne (setDefaults o textRequiredFields) "text" "type"
      (JVal.jstr (pyStr v)) (by decide), h1, h]
  · rw [h1, h]

theorem childNodes_congr (o1 o2 : PyDict)
    (h : PyDict.get? o1 "children" = PyDict.get? o2 "children") :
    childNodes o1 = childNodes o2 := by
  unfold childNodes
  rw [h]

theorem get?_ensure_type (o : PyDict) :
    PyDict.get? (ensure_required_fields o) "type" = PyDict.get? o "type" := by
  have hv := get?_setDefault_ne o "version" "type" (.jnum 1) (by decide)
  unfold ensure_required_fields
  dsimp only
  split
  · split
    · rw [get?_setDefaults_ne_all _ _ _ (by intro kv hkv; fin_cases hkv <;> decide), hv]
    · exact hv
  · exact hv

theorem get?_ensure_children (o : PyDict) :
    PyDict.get? (ensure_required_fields o) "children" = PyDict.get? o "children" := by
  have hv := get?_setDefault_ne o "version" "children" (.jnum 1) (by decide)
  unfold ensure_required_fields
  dsimp only
  split
  · split
    · rw [get?_setDefaults_ne_all _ _ _ (by intro kv hkv; fin_cases hkv <;> decide), hv]
    · exact hv
  · exact hv

theorem isSome_get?_ensure_version (o : PyDict) :
    (PyDict.get? (ensure_required_fields o) "version").isSome := by
  have hv := isSome_get?_setDefault_self o "version" (.jnum 1)
  unfold ensure_required_fields
  dsimp only
  split
  · split
    · exact isSome_get?_setDefaults_of_isSome _ _ _ hv
    · exact hv
  · exact hv

theorem ensure_block_fields (o : PyDict) (t : String) (ht : typeOfObj o = some t)
    (hb : t ∈ blockKinds) :
    (PyDict.get? (ensure_required_fields o) "direction").isSome ∧
    (PyDict.get? (ensure_required_fields o) "format").isSome ∧
    (PyDict.get? (ensure_required_fields o) "indent").isSome := by
  have hty1 : typeOfObj (setDefault o "version" (.jnum 1)) = typeOfObj o :=
    typeOfObj_congr _ _ (get?_setDefault_ne o "version" "type" (.jnum 1) (by decide))
  unfold ensure_required_fields
  dsimp only
  split
  · next t0 h0 =>
    rw [hty1, ht] at h0
    have heq : t = t0 := Option.some_inj.mp h0
    subst heq
    split
    · refine ⟨?_, ?_, ?_⟩ <;> exact isSome_get?_setDefaults_of_mem _ _ _ (by simp)
    · next hbk => exact absurd hb hbk
  · next h0 =>
    rw [hty1, ht] at h0
    cases h0

theorem ensure_eq_of_text (o : PyDict) (ht : typeOfObj o = some "text")
    (hv : (PyDict.get? o "version").isSome) :
    ensure_required_fields o = o := by
  have h1 : setDefault o "version" (.jnum 1) = o :=
    setDefault_of_hasKey o "version" (.jnum 1) hv
  unfold ensure_required_fields
  dsimp only
  rw [h1, ht]
  simp [blockKinds]

theorem nodeFieldsOk_ensure (o : PyDict)
    (htext : typeOfObj o = some "text" →
      textFieldsOk o = true ∧ (PyDict.get? o "version").isSome) :
    nodeFieldsOk (.jobj (ensure_required_fields o)) = true := by
  have hver := isSome_get?_ensure_version o
  have hty : typeOfObj (ensure_required_fields o) = typeOfObj o :=
    typeOfObj_congr _ _ (get?_ensure_type o)
  unfold nodeFieldsOk
  dsimp only
  rw [hty]
  cases h : typeOfObj o with
  | none => simp [PyDict.hasKey, hver]
  | some t =>
    by_cases hb : t ∈ blockKinds
    · have hblk := ensure_block_fields o t h hb
      have htne : t ≠ "text" := by
        rintro rfl
        simp [blockKinds] at hb
      simp [PyDict.hasKey, hver, hb, htne, hblk.1, hblk.2.1, hblk.2.2]
    · by_cases htt : t = "text"
      · subst htt
        obtain ⟨h1, h2⟩ := htext h
        have heq := ensure_eq_of_text o h h2
        rw [heq]
        simp [PyDict.hasKey, hb, h1, h2]
      · simp [PyDict.hasKey, hver, hb, htt]

theorem topListOk_ensure (o : PyDict)
    (hlist : typeOfObj o = some "list" → (childNodes o).all isListItemNode = true) :
    topListOk (.jobj (ensure_required_fields o)) = true := by
  have hty : typeOfObj (ensure_required_fields o) = typeOfObj o :=
    typeOfObj_congr _ _ (get?_ensure_type o)
  have hch : childNodes (ensure_required_fields o) = childNodes o :=
    childNodes_congr _ _ (get?_ensure_children o)
  unfold topListOk
  dsimp only
  rw [hty, hch]
  cases h : typeOfObj o with
  | none => rfl
  | some t =>
    by_cases hl : t = "list"
    · subst hl
      simp [hlist h]
    · simp [hl]

theorem asDict_ok (v : JVal) (o : PyDict) (h : asDict v = .ok o) : v = .jobj o := by
  cases v <;> simp [asDict] at h
  rw [h]

theorem typeOf_fix_list_item (o o2 : PyDict) (ht : typeOfObj o = some "listitem")
    (h : fix_list_item_structure o = .ok o2) : typeOfObj o2 = some "listitem" := by
  rw [typeOfObj_eq_some_iff] at ht
  have hsome : (PyDict.get? o "type").isSome = true := by rw [ht]; rfl
  have hty := get?_setDefaults_of_isSome o listitemRequiredFields "type" hsome
  unfold fix_list_item_structure at h
  dsimp only at h
  rw [typeOfObj_eq_some_iff]
  split at h
  · split at h
    · cases h
    · split at h
      · cases h
      · injection h with h2
        subst h2
        rw [get?_set_ne _ "children" "type" _ (by decide), hty, ht]
  · injection h with h2
    subst h2
    rw [hty, ht]

theorem flattenChild_text (acc : List JVal) (c : JVal) (res : List JVal)
    (hacc : acc.all isTextNode = true) (hc : liChildOk c = true)
    (h : flattenListItemChild acc c = .ok res) : res.all isTextNode = true := by
  unfold flattenListItemChild at h
  split at h
  · cases h
  · next co hco =>
    have hcv := asDict_ok c co hco
    subst hcv
    unfold liChildOk at hc
    dsimp only at hc
    split at h
    · next hpara =>
      rw [if_pos hpara] at hc
      split at h
      · next cc hcc =>
        rw [hcc] at hc
        split at h
        · cases h
        · next extra hextra =>
          injection h with h2
          subst h2
          cases cc with
          | jarr gs =>
            simp only [toIterList] at hextra
            injection hextra with h3
            subst h3
            have hc2 : gs.all isTextNode = true := hc
            rw [List.all_append, hacc, hc2]
            rfl
          | jnull => exact Bool.noConfusion hc
          | jbool b => exact Bool.noConfusion hc
          | jnum n => exact Bool.noConfusion hc
          | jstr s => exact Bool.noConfusion hc
          | jobj l => exact Bool.noConfusion hc
      · injection h with h2
        subst h2
        exact hacc
    · next hpara =>
      split at h
      · next htxt =>
        injection h with h2
        subst h2
        rw [List.all_append, hacc]
        have : isTextNode (.jobj (fix_text_node_structure co)) = true := by
          rw [typeOfObj_eq_some_iff] at htxt
          have := get?_fix_text_type co htxt
          simp [isTextNode, typeOfObj, this]
        simp [this]
      · injection h with h2
        subst h2
        exact hacc

theorem foldFlatten_text (cs : List JVal) (acc tc : List JVal)
    (hacc : acc.all isTextNode = true) (hcs : cs.all liChildOk = true)
    (h : foldFlatten acc cs = .ok tc) : tc.all isTextNode = true := by
  induction cs generalizing acc with
  | nil =>
    simp only [foldFlatten] at h
    injection h with h2
    subst h2
    exact hacc
  | cons c rest ih =>
    simp only [List.all_cons, Bool.and_eq_true] at hcs
    simp only [foldFlatten] at h
    split at h
    · cases h
    · next acc2 hstep =>
      exact ih acc2 (flattenChild_text acc c acc2 hacc hcs.1 hstep) hcs.2 h

theorem fix_list_item_children_text (o o2 : PyDict)
    (hhyp : liHypothesis o = true) (h : fix_list_item_structure o = .ok o2) :
    (childNodes o2).all isTextNode = true := by
  have hpres : PyDict.get? (setDefaults o listitemRequiredFields) "children" =
      PyDict.get? o "children" :=
    get?_setDefaults_ne_all _ _ _ (by intro kv hkv; fin_cases hkv <;> decide)
  unfold liHypothesis at hhyp
  unfold fix_list_item_structure at h
  dsimp only at h
  split at h
  · next cv hcv =>
    rw [hpres] at hcv
    rw [hcv] at hhyp
    split at h
    · cases h
    · next cs hcs =>
      split at h
      · cases h
      · next tc htc =>
        injection h with h2
        subst h2
        have hch : childNodes (PyDict.set (setDefaults o listitemRequiredFields)
            "children" (.jarr tc)) = tc := by
          unfold childNodes
          rw [get?_set_self]
        rw [hch]
        cases cv with
        | jarr cs0 =>
          simp only [toIterList] at hcs
          injection hcs with h3
          subst h3
          have hhyp2 : cs0.all liChildOk = true := hhyp
          exact foldFlatten_text cs0 [] tc rfl hhyp2 htc
        | jnull => exact Bool.noConfusion hhyp
        | jbool b => exact Bool.noConfusion hhyp
        | jnum n => exact Bool.noConfusion hhyp
        | jstr s => exact Bool.noConfusion hhyp
        | jobj l => exact Bool.noConfusion hhyp
  · next hnone =>
    injection h with h2
    subst h2
    rw [hpres] at hnone
    unfold childNodes
    rw [hpres, hnone]
    rfl

theorem fixListChild_listitem (c v : JVal) (h : fixListChild c = .ok v) :
    isListItemNode v = true := by
  unfold fixListChild at h
  split at h
  · cases h
  · next co hco =>
    split at h
    · next hli =>
      split at h
      · cases h
      · next c2 hc2 =>
        injection h with h2
        subst h2
        have := typeOf_fix_list_item co c2 hli hc2
        simp [isListItemNode, this]
    · next hli =>
      injection h with h2
      subst h2
      rfl

theorem mapFix_listitem (cs fixed : List JVal) (h : mapFixListChildren cs = .ok fixed) :
    fixed.all isListItemNode = true := by
  induction cs generalizing fixed with
  | nil =>
    simp only [mapFixListChildren] at h
    injection h with h2
    subst h2
    rfl
  | cons c rest ih =>
    simp only [mapFixListChildren] at h
    split at h
    · cases h
    · next c2 hc2 =>
      split at h
      · cases h
      · next rest2 hrest =>
        injection h with h2
        subst h2
        rw [List.all_cons, fixListChild_listitem c c2 hc2, ih rest2 hrest]
        rfl

theorem typeOf_fix_list (o o2 : PyDict) (ht : typeOfObj o = some "list")
    (h : fix_list_structure o = .ok o2) : typeOfObj o2 = some "list" := by
  rw [typeOfObj_eq_some_iff] at ht
  have hsome : (PyDict.get? o "type").isSome = true := by rw [ht]; rfl
  have hty := get?_setDefaults_of_isSome o listRequiredFields "type" hsome
  unfold fix_list_structure at h
  dsimp only at h
  rw [typeOfObj_eq_some_iff]
  have htag : ∀ d : PyDict, PyDict.get? d "type" = some (.jstr "list") →
      ∀ w, PyDict.get? (PyDict.set d "tag" w) "type" = some (.jstr "list") := by
    intro d hd w
    rw [get?_set_ne _ "tag" "type" _ (by decide), hd]
  have hlt : ∀ d : PyDict, PyDict.get? d "type" = some (.jstr "list") →
      ∀ w, PyDict.get? (PyDict.set d "listType" w) "type" = some (.jstr "list") := by
    intro d hd w
    rw [get?_set_ne _ "listType" "type" _ (by decide), hd]
  have hbase : PyDict.get? (setDefaults o listRequiredFields) "type" = some (.jstr "list") := by
    rw [hty, ht]
  split at h
  · next cv hcv =>
    split at h
    · cases h
    · next cs hcs =>
      split at h
      · cases h
      · next fixed hfx =>
        injection h with h2
        subst h2
        rw [get?_set_ne _ "children" "type" _ (by decide)]
        revert hcv
        split
        · next hb =>
          intro hcv
          exact htag _ hbase _
        · next hb =>
          intro hcv
          exact htag _ hbase _
        · next hb1 hb2 =>
          intro hcv
          exact htag _ (hlt _ hbase _) _
  · next hcv =>
    injection h with h2
    subst h2
    revert hcv
    split
    · next hb =>
      intro hcv
      exact htag _ hbase _
    · next hb =>
      intro hcv
      exact htag _ hbase _
    · next hb1 hb2 =>
      intro hcv
      exact htag _ (hlt _ hbase _) _

theorem childNodes_fix_list (o o2 : PyDict) (h : fix_list_structure o = .ok o2) :
    (childNodes o2).all isListItemNode = true := by
  unfold fix_list_structure at h
  dsimp only at h
  split at h
  · next cv hcv =>
    split at h
    · cases h
    · next cs hcs =>
      split at h
      · cases h
      · next fixed hfx =>
        injection h with h2
        subst h2
        unfold childNodes
        rw [get?_set_self]
        exact mapFix_listitem cs fixed hfx
  · next hcv =>
    injection h with h2
    subst h2
    unfold childNodes
    rw [hcv]
    rfl

theorem textFieldsOk_version (o : PyDict) (h : textFieldsOk o = true) :
    (PyDict.get? o "version").isSome := by
  simp only [textFieldsOk, Bool.and_eq_true, PyDict.hasKey] at h
  exact h.1.1.1.1.1.2

theorem processNode_props (n v : JVal) (h : processNode n = .ok (some v)) :
    nodeFieldsOk v = true ∧ topListOk v = true := by
  cases n with
  | jnull => simp [processNode] at h
  | jbool b => simp [processNode] at h
  | jnum m => simp [processNode] at h
  | jstr s => simp [processNode] at h
  | jarr xs => simp [processNode] at h
  | jobj o0 =>
    unfold processNode at h
    dsimp only at h
    split at h
    · cases h
    · next o2 ho2 =>
      split at h
      · cases h
      · next o3 ho3 =>
        injection h with h2
        injection h2 with h3
        subst h3
        by_cases ht3 : typeOfObj o3 = some "text"
        · rw [if_pos ht3]
          constructor
          · apply nodeFieldsOk_ensure
            intro _
            exact ⟨textFieldsOk_fix_text o3, textFieldsOk_version _ (textFieldsOk_fix_text o3)⟩
          · apply topListOk_ensure
            intro habs
            have hft := get?_fix_text_type o3 ((typeOfObj_eq_some_iff o3 "text").mp ht3)
            rw [typeOfObj_eq_some_iff] at habs
            rw [hft] at habs
            simp at habs
        · rw [if_neg ht3]
          constructor
          · apply nodeFieldsOk_ensure
            intro habs
            exact absurd habs ht3
          · apply topListOk_ensure
            intro hl3
            by_cases ht2 : typeOfObj o2 = some "list"
            · rw [if_pos ht2] at ho3
              exact childNodes_fix_list o2 o3 ho3
            · rw [if_neg ht2] at ho3
              injection ho3 with h4
              subst h4
              exact absurd hl3 ht2

theorem validateNodes_props (ns out : List JVal) (h : validateNodes ns = .ok out) :
    ∀ v ∈ out, nodeFieldsOk v = true ∧ topListOk v = true := by
  induction ns generalizing out with
  | nil =>
    simp only [validateNodes] at h
    injection h with h2
    subst h2
    intro v hv
    cases hv
  | cons n rest ih =>
    simp only [validateNodes] at h
    split at h
    · cases h
    · next r hr =>
      split at h
      · cases h
      · next out2 hout2 =>
        injection h with h2
        subst h2
        intro v hv
        cases r with
        | some v0 =>
          rcases List.mem_cons.mp hv with hv | hv
          · subst hv
            exact processNode_props n v hr
          · exact ih out2 hout2 v hv
        | none => exact ih out2 hout2 v hv

theorem validate_props (data : JVal) (ns : List JVal)
    (h : validate_lexical_structure data = .ok ns) :
    ∀ v ∈ ns, nodeFieldsOk v = true ∧ topListOk v = true := by
  unfold validate_lexical_structure at h
  cases data with
  | jarr xs => exact validateNodes_props xs ns h
  | jobj o =>
    dsimp only at h
    split at h
    · next c hc =>
      split at h
      · cases h
      · next xs hxs => exact validateNodes_props xs ns h
    · cases h
  | jnull => cases h
  | jbool b => cases h
  | jnum m => cases h
  | jstr s => cases h

theorem storeLookup_erase_self (store : ProgressStore) (sid : String) :
    storeLookup (storeErase store sid) sid = none := by
  induction store with
  | nil => rfl
  | cons hd tl ih =>
    obtain ⟨k, v⟩ := hd
    by_cases hk : k = sid
    · subst hk
      simp only [storeErase, List.filter_cons]
      rw [if_neg (by simp)]
      exact ih
    · simp only [storeErase, List.filter_cons]
      rw [if_pos (by simp [hk])]
      simp only [storeLookup]
      rw [if_neg hk]
      exact ih

theorem add_message_step (h0 : List ChatMessageRec) (m : ChatMessageRec)
    (hh : h0.length ≤ 20) :
    add_message h0 m = (h0 ++ [m]).drop ((h0.length + 1) - 20) ∧
    (add_message h0 m).length ≤ 20 := by
  unfold add_message
  dsimp only
  rw [List.length_append]
  simp only [List.length_cons, List.length_nil]
  by_cases hgt : h0.length + 1 > 20
  · rw [if_pos (by omega)]
    constructor
    · rfl
    · rw [List.length_drop, List.length_append]
      simp only [List.length_cons, List.length_nil]
      omega
  · rw [if_neg (by omega)]
    constructor
    · have : h0.length + 1 - 20 = 0 := by omega
      rw [this, List.drop_zero]
    · rw [List.length_append]
      simp only [List.length_cons, List.length_nil]
      omega

theorem add_message_fold (msgs : List ChatMessageRec) (h0 : List ChatMessageRec)
    (hh : h0.length ≤ 20) :
    (msgs.foldl add_message h0).length ≤ 20 ∧
    msgs.foldl add_message h0 = (h0 ++ msgs).drop ((h0.length + msgs.length) - 20) := by
  induction msgs generalizing h0 with
  | nil =>
    refine ⟨hh, ?_⟩
    simp only [List.foldl_nil, List.append_nil, List.length_nil, Nat.add_zero]
    rw [Nat.sub_eq_zero_of_le hh, List.drop_zero]
  | cons m rest ih =>
    obtain ⟨heq, hlen⟩ := add_message_step h0 m hh
    obtain ⟨ih1, ih2⟩ := ih (add_message h0 m) hlen
    refine ⟨by simpa using ih1, ?_⟩
    have hfold : (m :: rest).foldl add_message h0 = rest.foldl add_message (add_message h0 m) := rfl
    rw [hfold, ih2, heq]
    have hd : (h0.length + 1) - 20 ≤ (h0 ++ [m]).length := by
      rw [List.length_append]
      simp only [List.length_cons, List.length_nil]
      omega
    rw [← List.drop_append_of_le_length hd]
    rw [List.drop_drop]
    have harr : h0 ++ m :: rest = (h0 ++ [m]) ++ rest := by
      rw [List.append_assoc]
      rfl
    rw [harr]
    congr 1
    simp only [List.length_drop, List.length_append, List.length_cons, List.length_nil]
    omega

/-- Claim C1 counterexample: the validator itself is not total and does not
produce the fallback document. On a raw input that is neither an array nor
a children-bearing object it raises ValueError instead of returning a tree,
and on an input that normalizes to the empty list it returns the empty
list, not the fixed two-node fallback document. -/
theorem c1_counterexample :
    validate_lexical_structure (.jnum 5) =
      .error (.valueError "Expected array of Lexical nodes") ∧
    validate_lexical_structure (.jarr []) = .ok [] ∧
    create_fallback_lesson_structure ≠ [] := by
  refine ⟨rfl, rfl, ?_⟩
  simp [create_fallback_lesson_structure]

/-- Claim C1 (amended): `validate_lexical_structure` raises ValueError for
raw input that is neither a list nor a children-bearing object; the fixed
two-node fallback document is produced by the caller `pdf_to_lexical`,
which converts a parse or validation failure (including a result that
normalizes to the empty list) on the final attempt into the fallback; and
every top-level node of a successful validation carries a version field,
every block-kind node carries direction, format and indent, and every text
node carries the full text field set with a string value. -/
theorem c1_amended_thm (data : JVal) (ns : List JVal)
    (h : validate_lexical_structure data = .ok ns) :
    (∀ v ∈ ns, nodeFieldsOk v = true) ∧
    validate_lexical_structure (.jnum 5) =
      .error (.valueError "Expected array of Lexical nodes") ∧
    pdf_to_lexical (.parsed (.jarr [])) (.parsed (.jarr [])) (.parsed (.jarr [])) =
      .ok create_fallback_lesson_structure :=
  ⟨fun v hv => (validate_props data ns h v hv).1, rfl, rfl⟩

/-- Witness for the amended claim C1 at a concrete input. -/
theorem c1_amended_witness :
    (∀ v ∈ ([.jobj [("type", .jstr "heading"), ("version", .jnum 1),
        ("direction", .jstr "ltr"), ("format", .jstr ""), ("indent", .jnum 0)]] : List JVal),
      nodeFieldsOk v = true) ∧
    validate_lexical_structure (.jnum 5) =
      .error (.valueError "Expected array of Lexical nodes") ∧
    pdf_to_lexical (.parsed (.jarr [])) (.parsed (.jarr [])) (.parsed (.jarr [])) =
      .ok create_fallback_lesson_structure :=
  c1_amended_thm (.jarr [.jobj [("type", .jstr "heading")]])
    [.jobj [("type", .jstr "heading"), ("version", .jnum 1),
      ("direction", .jstr "ltr"), ("format", .jstr ""), ("indent", .jnum 0)]] rfl

/-- Claim C2: per-stage failure policy of the pipeline task. A gateway
failure in a hard stage (extraction, narration) writes an error record at
progress 100 with the failure message and nothing runs after it, while a
failure in a soft stage (keywords, video search, audio synthesis) is
replaced by its fallback value (the generic keyword list seeded with the
lowercased lesson title; the empty video list; no audio artifact in the
stored lesson data) and the session still ends at the terminal selection
stage with progress 100. -/
theorem c2_stage_policy (title e0 e1 narr : String) (cid : Int) (ns : List JVal)
    (nr : Except String String) (kr vr : Except String (List String))
    (tr : Except String Unit) :
    (generate_lesson_task title cid ⟨.error e0, nr, kr, vr, tr⟩).1 =
      [⟨"processing", 10, "Analyzing PDF content..."⟩,
       ⟨"error", 100, "AI content analysis failed: " ++ e0⟩] ∧
    (generate_lesson_task title cid ⟨.error e0, nr, kr, vr, tr⟩).2.stage = "error" ∧
    (generate_lesson_task title cid ⟨.error e0, nr, kr, vr, tr⟩).2.message =
      "AI content analysis failed: " ++ e0 ∧
    (generate_lesson_task title cid ⟨.ok ns, .error e1, kr, vr, tr⟩).1 =
      [⟨"processing", 10, "Analyzing PDF content..."⟩,
       ⟨"processing", 40, "PDF content analysis complete"⟩,
       ⟨"processing", 40, "Generating audio narration script..."⟩,
       ⟨"error", 100, "Audio narration script generation failed: " ++ e1⟩] ∧
    (generate_lesson_task title cid ⟨.ok ns, .error e1, kr, vr, tr⟩).2.stage = "error" ∧
    (generate_lesson_task title cid ⟨.ok ns, .ok narr, kr, vr, tr⟩).2.stage = "selection" ∧
    (generate_lesson_task title cid ⟨.ok ns, .ok narr, kr, vr, tr⟩).2.progress = 100 ∧
    (generate_lesson_task title cid ⟨.ok ns, .ok narr, kr, vr, tr⟩).1.getLast? =
      some ⟨"selection", 100, "Lesson ready for video selection"⟩ ∧
    (generate_lesson_task title cid ⟨.ok ns, .ok narr, .error e0, vr, tr⟩).2.keywordsStored =
      some ["education", "learning", title.toLower] ∧
    (generate_lesson_task title cid ⟨.ok ns, .ok narr, kr, .error e0, tr⟩).2.videosStored =
      some [] ∧
    (generate_lesson_task title cid ⟨.ok ns, .ok narr, kr, vr, tr⟩).2.lessonData =
      some ⟨title, cid, ns, narr⟩ := by
  rcases kr with ek | ks <;> rcases vr with ev | vs <;> rcases tr with et | u <;>
    exact ⟨rfl, rfl, rfl, rfl, rfl, rfl, rfl, rfl, rfl, rfl, rfl⟩

/-- Claim C3: the extraction gateway makes at most 3 attempts on a fixed
input; three transient failures raise the service-unavailable message; a
permanent (quota) failure aborts on the spot after a single attempt; and a
malformed (parse or validation) outcome on the final attempt returns the
fixed fallback document instead of raising. -/
theorem c3_retry_policy (m0 m1 m2 q p : String) (d0 d1 : GeminiResult)
    (h0 : pdfAttemptStep (classifyAttempt d0) false = none)
    (h1 : pdfAttemptStep (classifyAttempt d1) false = none) :
    (∀ a0 a1 : GeminiResult, attemptsUsed a0 a1 ≤ 3) ∧
    pdf_to_lexical (.serverErr m0) (.serverErr m1) (.serverErr m2) =
      .error "Gemini AI service is currently unavailable. Please try again in a few minutes." ∧
    pdf_to_lexical (.quotaErr q) d0 d1 =
      .error "AI service quota exceeded. Please try again later." ∧
    attemptsUsed (.quotaErr q) d0 = 1 ∧
    pdf_to_lexical d0 d1 (.jsonErr p) = .ok create_fallback_lesson_structure := by
  refine ⟨?_, rfl, rfl, rfl, ?_⟩
  · intro a0 a1
    unfold attemptsUsed
    split
    · omega
    · split <;> omega
  · unfold pdf_to_lexical
    rw [h0, h1]
    rfl

/-- Witness for claim C3 at concrete attempt outcomes. -/
theorem c3_retry_policy_witness :
    (∀ a0 a1 : GeminiResult, attemptsUsed a0 a1 ≤ 3) ∧
    pdf_to_lexical (.serverErr "a") (.serverErr "b") (.serverErr "c") =
      .error "Gemini AI service is currently unavailable. Please try again in a few minutes." ∧
    pdf_to_lexical (.quotaErr "q") (.serverErr "s") (.jsonErr "j") =
      .error "AI service quota exceeded. Please try again later." ∧
    attemptsUsed (.quotaErr "q") (.serverErr "s") = 1 ∧
    pdf_to_lexical (.serverErr "s") (.jsonErr "j") (.jsonErr "p") =
      .ok create_fallback_lesson_structure :=
  c3_retry_policy "a" "b" "c" "q" "p" (.serverErr "s") (.jsonErr "j") rfl rfl

/-- Claim C4 counterexample: the list invariants do not hold at all
nesting depths. Flattening a paragraph child of a listitem inlines the
paragraph children verbatim, so a nested list node survives as a direct
child of the output listitem (and that list node keeps its non-listitem
text child). -/
theorem c4_counterexample :
    Except.map deepListOkListPart (validate_lexical_structure c4Input) = .ok false := by
  rfl

/-- Claim C4 (amended): in the validator output, every top-level list node
has only listitem children; and the listitem fixer yields only text
children provided every paragraph child of the listitem carries only text
children (children of deeper nodes are not repaired). -/
theorem c4_amended_thm (data : JVal) (ns : List JVal) (o o2 : PyDict)
    (h1 : validate_lexical_structure data = .ok ns)
    (h2 : liHypothesis o = true) (h3 : fix_list_item_structure o = .ok o2) :
    (∀ n ∈ ns, topListOk n = true) ∧ (childNodes o2).all isTextNode = true :=
  ⟨fun n hn => (validate_props data ns h1 n hn).2,
   fix_list_item_children_text o o2 h2 h3⟩

/-- Witness for the amended claim C4 at a concrete list input. -/
theorem c4_amended_witness :
    (∀ n ∈ ([.jobj [("type", .jstr "list"), ("version", .jnum 1),
        ("direction", .jstr "ltr"), ("format", .jstr ""), ("indent", .jnum 0),
        ("start", .jnum 1), ("listType", .jstr "bullet"), ("tag", .jstr "ul")]] : List JVal),
      topListOk n = true) ∧
    (childNodes listitemRequiredFields).all isTextNode = true :=
  c4_amended_thm (.jarr [.jobj [("type", .jstr "list")]])
    [.jobj [("type", .jstr "list"), ("version", .jnum 1),
      ("direction", .jstr "ltr"), ("format", .jstr ""), ("indent", .jnum 0),
      ("start", .jnum 1), ("listType", .jstr "bullet"), ("tag", .jstr "ul")]]
    [] listitemRequiredFields rfl rfl rfl

/-- Claim C5: over every possible combination of collaborator outcomes,
the progress percentages written for a session form a non-decreasing
sequence from the upload record to the terminal record. -/
theorem c5_progress_monotone (title : String) (cid : Int) (g : GatewayRuns) :
    List.Chain' (fun a b => a ≤ b) (progressSeq title cid g) := by
  obtain ⟨ex, nr, kr, vr, tr⟩ := g
  rcases ex with e0 | ns
  · show List.Chain' (fun a b => a ≤ b) [0, 10, 100]
    norm_num [List.chain'_cons, List.chain'_singleton]
  · rcases nr with e1 | narr
    · show List.Chain' (fun a b => a ≤ b) [0, 10, 40, 40, 100]
      norm_num [List.chain'_cons, List.chain'_singleton]
    · rcases kr with ek | ks <;> rcases vr with ev | vs <;> rcases tr with et | u <;>
      · show List.Chain' (fun a b => a ≤ b) [0, 10, 40, 40, 55, 55, 70, 70, 80, 80, 95, 100]
        norm_num [List.chain'_cons, List.chain'_singleton]

/-- Claim C6: result retrieval returns the stored payload exactly when the
session record is at the terminal selection stage with progress 100 (and
hence carries its lesson data); any non-terminal record yields the
202-equivalent still-running signal and leaves the store untouched; and a
successful retrieval deletes the record, so the second retrieval for the
same id reports not-found. -/
theorem c6_result_consumption (store : ProgressStore) (sid : String)
    (pd : SessionRecord) (hlook : storeLookup store sid = some pd) :
    (∀ ld, pd.stage = "selection" → pd.progress = 100 → pd.lessonData = some ld →
       (get_lesson_result store sid).1 = .success ld (pd.videosStored.getD []) sid ∧
       (get_lesson_result (get_lesson_result store sid).2 sid).1 = .notFound) ∧
    (pd.stage ≠ "selection" ∨ pd.progress < 100 →
       (get_lesson_result store sid).1 = .stillRunning ∧
       (get_lesson_result store sid).2 = store) ∧
    (∀ ld v s2, (get_lesson_result store sid).1 = .success ld v s2 →
       pd.stage = "selection" ∧ 100 ≤ pd.progress ∧ pd.lessonData = some ld) := by
  refine ⟨?_, ?_, ?_⟩
  · intro ld h1 h2 h3
    have hcond : ¬(pd.stage ≠ "selection" ∨ pd.progress < 100) := by
      rw [h1, h2]
      simp
    unfold get_lesson_result
    rw [hlook]
    dsimp only
    rw [if_neg hcond, h3]
    dsimp only
    refine ⟨rfl, ?_⟩
    simp [get_lesson_result, storeLookup_erase_self]
  · intro hcond
    unfold get_lesson_result
    rw [hlook]
    dsimp only
    rw [if_pos hcond]
    exact ⟨rfl, rfl⟩
  · intro ld v s2 hsucc
    unfold get_lesson_result at hsucc
    rw [hlook] at hsucc
    dsimp only at hsucc
    by_cases hcond : pd.stage ≠ "selection" ∨ pd.progress < 100
    · rw [if_pos hcond] at hsucc
      cases hsucc
    · rw [if_neg hcond] at hsucc
      push_neg at hcond
      cases hld : pd.lessonData with
      | none =>
        rw [hld] at hsucc
        cases hsucc
      | some ld0 =>
        rw [hld] at hsucc
        injection hsucc with e1 e2 e3
        subst e1
        exact ⟨hcond.1, hcond.2, rfl⟩

/-- Witness for claim C6: a concrete terminal record is consumed by the
first retrieval and gone at the second. -/
theorem c6_witness :
    ((get_lesson_result [("s", (⟨"selection", 100, "done",
        some ⟨"T", 1, [], "n"⟩, some [], some []⟩ : SessionRecord))] "s").1 =
      .success ⟨"T", 1, [], "n"⟩ ((some []).getD []) "s" ∧
     (get_lesson_result
        (get_lesson_result [("s", (⟨"selection", 100, "done",
          some ⟨"T", 1, [], "n"⟩, some [], some []⟩ : SessionRecord))] "s").2 "s").1 =
      .notFound) :=
  (c6_result_consumption
      [("s", (⟨"selection", 100, "done", some ⟨"T", 1, [], "n"⟩, some [], some []⟩ :
        SessionRecord))] "s"
      ⟨"selection", 100, "done", some ⟨"T", 1, [], "n"⟩, some [], some []⟩ rfl).1
    ⟨"T", 1, [], "n"⟩ rfl rfl rfl

/-- Claim C7 counterexample: the raw internal error text does reach the
caller. The websocket chat error event embeds the raw error string in its
caller-visible content, and the HTTP chat payload carries the raw error
string under its error key. -/
theorem c7_counterexample :
    strContains (ws_chat_error_content "Ollama connection refused")
      "Ollama connection refused" = true ∧
    (generate_response_payload "s1" "hi" "default" []
      (.error "Ollama connection refused")).errorField =
      some "Ollama connection refused" := by
  exact ⟨rfl, rfl⟩

/-- Claim C7 (amended): a failure of the LLM collaborator yields the fixed
apologetic fallback as the reply text of the HTTP chat path, but the
returned payload additionally carries the raw error string under its error
key, and the websocket chat path answers with an error event whose content
embeds the raw internal error text. -/
theorem c7_amended_thm (sid msg mode e : String) (rel : List String) :
    (generate_response_payload sid msg mode rel (.error e)).responseText =
      chatFallbackText ∧
    (generate_response_payload sid msg mode rel (.error e)).errorField = some e ∧
    ws_chat_error_content e =
      "Sorry, I encountered an error: " ++ e ++ ". Please try again." :=
  ⟨rfl, rfl, rfl⟩

/-- Claim C8: cancelling a session with a live websocket connection deletes
the progress-store entry and removes the connection, but delivers no
cancellation event at all: the handler disconnects the session before
calling `send_progress_update`, whose registry check then fails, so the
constructed cancellation event is never sent. -/
theorem c8_cancel_notification_lost :
    (cancel_lesson_generation
      ⟨[("s", ⟨"processing", 40, "working", none, none, none⟩)], ["s"], []⟩ "s").sentEvents =
      [] ∧
    storeLookup (cancel_lesson_generation
      ⟨[("s", ⟨"processing", 40, "working", none, none, none⟩)], ["s"], []⟩ "s").tracker "s" =
      none ∧
    (cancel_lesson_generation
      ⟨[("s", ⟨"processing", 40, "working", none, none, none⟩)], ["s"], []⟩
      "s").activeConnections = [] := by
  exact ⟨rfl, rfl, rfl⟩

/-- Claim C9: after any sequence of add-message operations starting from
the empty history, the chat history holds at most 20 entries, and it is
exactly the suffix of the message sequence with the oldest entries
evicted first. -/
theorem c9_history_cap (msgs : List ChatMessageRec) :
    (msgs.foldl add_message []).length ≤ 20 ∧
    msgs.foldl add_message [] = msgs.drop (msgs.length - 20) := by
  have h := add_message_fold msgs [] (by simp)
  simpa using h

/-- Claim C10: for every user message, bot response and mode, the
suggestion generator returns exactly 3 suggestions and none of them is the
empty string. -/
theorem c10_suggestions (u b m : String) :
    (generate_suggestions u b m).length = 3 ∧
    (generate_suggestions u b m).all (fun s => !s.isEmpty) = true := by
  unfold generate_suggestions
  dsimp only
  split
  · exact ⟨rfl, rfl⟩
  · split
    · exact ⟨rfl, rfl⟩
    · split
      · exact ⟨rfl, rfl⟩
      · exact ⟨rfl, rfl⟩
